import Mathlib

/-!
Verification of the document-handle layer of a Rust binding over a native
document-processing engine (src/document.rs).

The embedding models:
  * the typed error channel (`Error`),
  * C-string marshaling with its interior-NUL check (`cstringNew`),
  * the native engine as oracles (`NativeDoc` for per-document native entry
    points, `Engine` for the free construction entry points),
  * the `Document` wrapper and its operations (`openDoc`, `from_bytes`,
    `recognize`, `authenticate`, `page_count`, `metadata`, `resolve_link`,
    `convert_to_pdf`, `load_page`, `pages`),
  * the `PageIter` iterator and its `next` step,
  * the `Drop` finalizer as an explicit list of emitted release calls,
  * the `IntoIterator` implementations, which call `pages().unwrap()`
    (a panic on failure is modelled by `PanicOr.panicked`).

Machine integers (`i32`) are modelled as `Int`; the operations verified here
only compare and increment them, far from any overflow boundary, and the
native layer is assumed (per the design notes) to return valid values.
Null raw pointers are modelled by the integer 0.
-/

/-- The typed error channel of the binding (`crate::Error`): an engine error
carrying the diagnostic message retrieved from the native execution context,
an invalid-input error produced by `CString::new` on an embedded NUL, and an
I/O error from the buffer-write step of `from_bytes`. -/
inductive Error where
  | invalidInput
  | engine (msg : String)
  | io (msg : String)
deriving DecidableEq, Repr

/-- `true` iff the string contains the NUL character, which `CString::new`
rejects (a 0 byte occurs in UTF-8 exactly as the character U+0000). -/
def hasInteriorNul (s : String) : Bool :=
  s.data.any fun c => c = Char.ofNat 0

/-- `CString::new`: fails with the invalid-input error when the string has an
embedded NUL, otherwise yields the marshaled string. -/
def cstringNew (s : String) : Except Error String :=
  if hasInteriorNul s then .error .invalidInput else .ok s

/-- `MetadataName` (src/document.rs): the closed enumeration of metadata keys. -/
inductive MetadataName where
  | Format
  | Encryption
  | Author
  | Title
  | Producer
  | Creator
  | CreationDate
  | ModDate
  | Subject
  | Keywords
deriving DecidableEq, Repr

/-- `MetadataName::to_str`: the fixed translation table from metadata keys to
native lookup key strings, transcribed from the `match` in src/document.rs. -/
def MetadataName.to_str : MetadataName → String
  | .Format => "format"
  | .Encryption => "encryption"
  | .Author => "info:Author"
  | .Title => "info::Title"
  | .Producer => "info:Producer"
  | .Creator => "info:Creator"
  | .CreationDate => "info:CreationDate"
  | .ModDate => "info:ModDate"
  | .Subject => "info:Subject"
  | .Keywords => "info:Keywords"

/-- The list of all ten metadata keys. -/
def MetadataName.all : List MetadataName :=
  [.Format, .Encryption, .Author, .Title, .Producer, .Creator,
   .CreationDate, .ModDate, .Subject, .Keywords]

/-- A loaded page (external collaborator type): owns its native page pointer. -/
structure Page where
  inner : Int
deriving DecidableEq, Repr

/-- `Page::from_raw`. -/
def Page.from_raw (ptr : Int) : Page := ⟨ptr⟩

/-- A converted PDF document (external collaborator type). -/
structure PdfDocument where
  inner : Int
deriving DecidableEq, Repr

/-- `PdfDocument::from_raw`. -/
def PdfDocument.from_raw (ptr : Int) : PdfDocument := ⟨ptr⟩

/-- Oracle for the per-document native entry points (each `ffi_try!` call on a
given document pointer): every fallible native call either yields its result
or signals a typed failure. Pointer results are modelled as `Int`, and a NULL
string result of `mupdf_lookup_metadata` as `none`. -/
structure NativeDoc where
  mupdf_document_page_count : Except Error Int
  mupdf_load_page : Int → Except Error Int
  mupdf_lookup_metadata : String → Except Error (Option String)
  mupdf_resolve_link : String → Except Error Int
  mupdf_authenticate_password : String → Except Error Bool
  mupdf_needs_password : Except Error Bool
  mupdf_is_document_reflowable : Except Error Bool
  mupdf_convert_to_pdf : Int → Int → Int → Except Error Int

/-- `Document` (src/document.rs): the owning wrapper around one native
document resource. `inner` is the raw pointer (0 = null); `native` is the
oracle giving the native layer's behaviour on that resource. -/
structure Document where
  inner : Int
  native : NativeDoc

/-- Oracle for the free native construction entry points. `docFor ptr` gives
the native behaviour of the document resource at pointer `ptr`. -/
structure Engine where
  mupdf_open_document : String → Except Error Int
  mupdf_open_document_from_bytes : List Nat → String → Except Error Int
  mupdf_recognize_document : String → Except Error Bool
  buffer_write : List Nat → Except Error Unit
  docFor : Int → NativeDoc

/-- `Document::open`: marshal the path, then delegate to the native open call;
either step's failure propagates, success wraps the returned pointer. -/
def Document.openDoc (eng : Engine) (filename : String) : Except Error Document := do
  let c_name ← cstringNew filename
  let inner ← eng.mupdf_open_document c_name
  pure { inner := inner, native := eng.docFor inner }

/-- `Document::from_bytes`: marshal the format hint, copy the bytes into a
buffer, then delegate to the native open-from-buffer call. -/
def Document.from_bytes (eng : Engine) (bytes : List Nat) (magic : String) :
    Except Error Document := do
  let c_magic ← cstringNew magic
  let _ ← eng.buffer_write bytes
  let inner ← eng.mupdf_open_document_from_bytes bytes c_magic
  pure { inner := inner, native := eng.docFor inner }

/-- `Document::recognize`: marshal the hint, then probe the native layer. -/
def Document.recognize (eng : Engine) (magic : String) : Except Error Bool := do
  let c_magic ← cstringNew magic
  eng.mupdf_recognize_document c_magic

/-- `Document::needs_password`. -/
def Document.needs_password (d : Document) : Except Error Bool :=
  d.native.mupdf_needs_password

/-- `Document::authenticate`: marshal the password, then ask the native layer. -/
def Document.authenticate (d : Document) (password : String) : Except Error Bool := do
  let c_pass ← cstringNew password
  d.native.mupdf_authenticate_password c_pass

/-- `Document::page_count`. -/
def Document.page_count (d : Document) : Except Error Int :=
  d.native.mupdf_document_page_count

/-- `Document::metadata`: marshal the fixed key, call the native lookup; a
NULL result yields the empty string (soft absence), otherwise the string. -/
def Document.metadata (d : Document) (name : MetadataName) : Except Error String := do
  let c_key ← cstringNew name.to_str
  let info ← d.native.mupdf_lookup_metadata c_key
  match info with
  | none => pure ""
  | some s => pure s

/-- `Document::resolve_link`: marshal the URI, call the native resolver;
a non-negative result is `some n`, a negative result is `none`. -/
def Document.resolve_link (d : Document) (uri : String) : Except Error (Option Int) := do
  let c_uri ← cstringNew uri
  let n ← d.native.mupdf_resolve_link c_uri
  if n ≥ 0 then pure (some n) else pure none

/-- `Document::is_reflowable`. -/
def Document.is_reflowable (d : Document) : Except Error Bool :=
  d.native.mupdf_is_document_reflowable

/-- `Document::load_page`: delegate to the native page load (no bounds
pre-check), wrapping the returned pointer. -/
def Document.load_page (d : Document) (page_no : Int) : Except Error Page :=
  (d.native.mupdf_load_page page_no).map Page.from_raw

/-- `Document::convert_to_pdf`: read the page count, clamp the range exactly
as the source does, then call the native conversion with the clamped range. -/
def Document.convert_to_pdf (d : Document) (start_page end_page : Int) (rotate : Int) :
    Except Error PdfDocument := do
  let page_count ← d.page_count
  let start_page := if start_page > page_count - 1 then page_count - 1 else start_page
  let end_page := if end_page > page_count - 1 || end_page < 0 then page_count - 1
                  else end_page
  let inner ← d.native.mupdf_convert_to_pdf start_page end_page rotate
  pure (PdfDocument.from_raw inner)

/-- `PageIter` (src/document.rs): current index, the page count captured at
creation, and the borrowed source document. -/
structure PageIter where
  index : Int
  total : Int
  doc : Document

/-- `Document::pages`: snapshot the current page count and start at index 0. -/
def Document.pages (d : Document) : Except Error PageIter :=
  (d.page_count).map fun total => { index := 0, total := total, doc := d }

/-- `Iterator::next` for `PageIter`: exhausted once `index >= total`;
otherwise load the page at `index`, increment `index`, and yield the load's
result (success or failure) as the element. Returns the yielded element
together with the iterator's successor state. -/
def PageIter.next (it : PageIter) : Option (Except Error Page) × PageIter :=
  if it.index ≥ it.total then
    (none, it)
  else
    (some (it.doc.load_page it.index), { it with index := it.index + 1 })

/-- Run an iterator to exhaustion (with fuel, since indices are `Int`),
collecting the sequence of produced elements. -/
def PageIter.run (it : PageIter) : Nat → List (Except Error Page)
  | 0 => []
  | fuel + 1 =>
    match it.next with
    | (none, _) => []
    | (some r, it') => r :: it'.run fuel

/-- A release call emitted to the native layer during finalization. -/
inductive ReleaseCall where
  | fz_drop_document (ptr : Int)
deriving DecidableEq, Repr

/-- `impl Drop for Document`: the finalizer body, as the list of release
calls it emits — one `fz_drop_document` on the stored pointer when it is
non-null, none otherwise. (The host language runs `drop` at most once per
value, so this list is the handle's entire release history.) -/
def Document.dropHandle (d : Document) : List ReleaseCall :=
  if d.inner ≠ 0 then [ReleaseCall.fz_drop_document d.inner] else []

/-- The result of an operation that may panic instead of returning:
`panicked` models a Rust panic (`unwrap` on an `Err`). -/
inductive PanicOr (α : Type) where
  | panicked
  | value (a : α)
deriving DecidableEq

/-- `Result::unwrap`: the value on `Ok`, a panic on `Err`. -/
def unwrapOrPanic {α : Type} : Except Error α → PanicOr α
  | .ok a => .value a
  | .error _ => .panicked

/-- `impl IntoIterator for &Document` (and `&mut Document`):
`self.pages().unwrap()` — panics when `pages` fails. -/
def Document.into_iter (d : Document) : PanicOr PageIter :=
  unwrapOrPanic d.pages

/-! ### Concrete oracle instances, used to witness the theorems below. -/

/-- A well-behaved native document: two pages, every call succeeds, metadata
is absent (NULL). -/
def sampleNative : NativeDoc where
  mupdf_document_page_count := .ok 2
  mupdf_load_page := fun i => .ok (100 + i)
  mupdf_lookup_metadata := fun _ => .ok none
  mupdf_resolve_link := fun _ => .ok 3
  mupdf_authenticate_password := fun _ => .ok true
  mupdf_needs_password := .ok false
  mupdf_is_document_reflowable := .ok false
  mupdf_convert_to_pdf := fun s e _ => .ok (1000 + 10 * s + e)

/-- A sample document handle over `sampleNative`. -/
def sampleDoc : Document :=
  { inner := 7, native := sampleNative }

/-- The iterator `sampleDoc.pages` produces. -/
def sampleIter : PageIter :=
  { index := 0, total := 2, doc := sampleDoc }

/-- A native document whose page-count query fails with an engine error. -/
def failingNative : NativeDoc :=
  { sampleNative with mupdf_document_page_count := .error (.engine "cannot count pages") }

/-- A document handle whose page-count query fails. -/
def failingDoc : Document :=
  { inner := 8, native := failingNative }

/-- A native document where loading page 0 fails but later pages load fine. -/
def flakyNative : NativeDoc :=
  { sampleNative with
      mupdf_load_page := fun i => if i = 0 then .error (.engine "bad page") else .ok (100 + i) }

/-- An iterator over the flaky document, at index 0 of 2. -/
def flakyIter : PageIter :=
  { index := 0, total := 2, doc := { inner := 9, native := flakyNative } }

/-- A sample engine whose open-by-path call always fails. -/
def sampleEngine : Engine where
  mupdf_open_document := fun _ => .error (.engine "no such file")
  mupdf_open_document_from_bytes := fun _ _ => .error (.engine "unrecognized format")
  mupdf_recognize_document := fun _ => .ok false
  buffer_write := fun _ => .ok ()
  docFor := fun p => { sampleNative with mupdf_document_page_count := .ok p }

/-! ### Claim theorems -/

/-- Computation rule: binding a success applies the continuation. -/
@[simp] theorem exceptBind_ok {α β : Type} (a : α) (f : α → Except Error β) :
    (Except.ok a >>= f : Except Error β) = f a := rfl

/-- Computation rule: binding a failure propagates it. -/
@[simp] theorem exceptBind_error {α β : Type} (e : Error) (f : α → Except Error β) :
    ((Except.error e : Except Error α) >>= f) = .error e := rfl

/-- Computation rule: `pure` is `Except.ok`. -/
@[simp] theorem exceptPure_eq_ok {α : Type} (a : α) :
    (pure a : Except Error α) = .ok a := rfl

/-- C1: for every document handle whose page-count query yields `count`,
`convert_to_pdf(startPage, endPage, rotate)` invokes the native conversion
with start page `count - 1` when `startPage > count - 1` and `startPage`
otherwise (so a negative start page passes through unchanged), and with end
page `count - 1` when `endPage > count - 1 || endPage < 0` and `endPage`
otherwise. -/
theorem convert_to_pdf_clamps_range (d : Document) (s e r count : Int)
    (h : d.page_count = .ok count) :
    d.convert_to_pdf s e r =
      (d.native.mupdf_convert_to_pdf
        (if s > count - 1 then count - 1 else s)
        (if e > count - 1 || e < 0 then count - 1 else e) r).map PdfDocument.from_raw := by
  have h1 : d.convert_to_pdf s e r =
      (d.native.mupdf_convert_to_pdf
        (if s > count - 1 then count - 1 else s)
        (if e > count - 1 || e < 0 then count - 1 else e) r) >>= fun inner =>
        pure (PdfDocument.from_raw inner) := by
    unfold Document.convert_to_pdf
    rw [h]
    rfl
  rw [h1]
  cases d.native.mupdf_convert_to_pdf
      (if s > count - 1 then count - 1 else s)
      (if e > count - 1 || e < 0 then count - 1 else e) r <;> rfl

/-- Witness for C1: on the two-page sample document, `convert_to_pdf 5 (-1) 0`
calls the native conversion with both bounds clamped to page 1. -/
theorem convert_to_pdf_clamps_range_witness :
    sampleDoc.convert_to_pdf 5 (-1) 0 =
      (sampleDoc.native.mupdf_convert_to_pdf
        (if (5 : Int) > 2 - 1 then 2 - 1 else 5)
        (if (-1 : Int) > 2 - 1 || (-1 : Int) < 0 then 2 - 1 else -1) 0).map
        PdfDocument.from_raw :=
  convert_to_pdf_clamps_range sampleDoc 5 (-1) 0 2 rfl

/-- C10: the metadata key table sends `Title` to the double-colon string
`"info::Title"`, sends each of the seven other document-information keys to a
single-colon `"info:"`-prefixed string, and its ten entries are pairwise
distinct constants. -/
theorem metadata_key_table :
    MetadataName.to_str .Title = "info::Title" ∧
    ([MetadataName.Author, .Producer, .Creator, .CreationDate, .ModDate,
      .Subject, .Keywords].all
      (fun k => "info:".data.isPrefixOf k.to_str.data &&
        !("info::".data.isPrefixOf k.to_str.data)) = true) ∧
    (MetadataName.all.map MetadataName.to_str).Nodup :=
  ⟨rfl, by decide, by decide⟩

/-- Lemma: the fixed metadata keys contain no interior NUL, so marshaling
them never fails. -/
theorem cstringNew_to_str (name : MetadataName) :
    cstringNew name.to_str = .ok name.to_str := by
  cases name <;> rfl

/-- C5: a caller-supplied string with an embedded NUL makes open-by-path,
open-from-bytes, format recognition, authenticate and resolveLink return the
invalid-input error immediately; since the result is the same for every
engine and document oracle, the native call is never reached. -/
theorem interior_nul_rejected (eng : Engine) (d : Document) (bytes : List Nat)
    (s : String) (h : hasInteriorNul s = true) :
    Document.openDoc eng s = .error .invalidInput ∧
    Document.from_bytes eng bytes s = .error .invalidInput ∧
    Document.recognize eng s = .error .invalidInput ∧
    d.authenticate s = .error .invalidInput ∧
    d.resolve_link s = .error .invalidInput := by
  have hc : cstringNew s = .error .invalidInput := by
    unfold cstringNew
    simp [h]
  refine ⟨?_, ?_, ?_, ?_, ?_⟩ <;>
    first
    | (unfold Document.openDoc; rw [hc]; rfl)
    | (unfold Document.from_bytes; rw [hc]; rfl)
    | (unfold Document.recognize; rw [hc]; rfl)
    | (unfold Document.authenticate; rw [hc]; rfl)
    | (unfold Document.resolve_link; rw [hc]; rfl)

/-- Witness for C5: the string "a\x00b" has an interior NUL, and all five
operations reject it with the invalid-input error on the sample oracles. -/
theorem interior_nul_rejected_witness :
    Document.openDoc sampleEngine "a\x00b" = .error .invalidInput ∧
    Document.from_bytes sampleEngine [1, 2] "a\x00b" = .error .invalidInput ∧
    Document.recognize sampleEngine "a\x00b" = .error .invalidInput ∧
    sampleDoc.authenticate "a\x00b" = .error .invalidInput ∧
    sampleDoc.resolve_link "a\x00b" = .error .invalidInput :=
  interior_nul_rejected sampleEngine sampleDoc [1, 2] "a\x00b" (by decide)

/-- C6: `resolve_link` maps a successful native resolution result `n` to
`some n` exactly when `n ≥ 0` and to `none` exactly when `n < 0`, and it
fails only when the URI cannot be marshaled or the native call errs. -/
theorem resolve_link_sign (d : Document) (uri : String) :
    (∀ n, hasInteriorNul uri = false → d.native.mupdf_resolve_link uri = .ok n →
      d.resolve_link uri = .ok (if n ≥ 0 then some n else none)) ∧
    (∀ e, d.resolve_link uri = .error e →
      cstringNew uri = .error e ∨ d.native.mupdf_resolve_link uri = .error e) := by
  constructor
  · intro n hnul hok
    have hc : cstringNew uri = .ok uri := by
      unfold cstringNew
      simp [hnul]
    unfold Document.resolve_link
    rw [hc]
    simp only [exceptBind_ok]
    rw [hok]
    simp only [exceptBind_ok]
    by_cases hn : n ≥ 0
    · rw [if_pos hn, if_pos hn]
      rfl
    · rw [if_neg hn, if_neg hn]
      rfl
  · intro e he
    unfold Document.resolve_link at he
    by_cases hx : hasInteriorNul uri
    · have hc : cstringNew uri = .error .invalidInput := by
        unfold cstringNew
        simp [hx]
      rw [hc] at he
      simp only [exceptBind_error, Except.error.injEq] at he
      subst he
      left
      exact hc
    · have hc : cstringNew uri = .ok uri := by
        unfold cstringNew
        simp [hx]
      rw [hc] at he
      simp only [exceptBind_ok] at he
      cases hr : d.native.mupdf_resolve_link uri with
      | error e1 =>
        rw [hr] at he
        simp only [exceptBind_error, Except.error.injEq] at he
        subst he
        right
        rfl
      | ok n =>
        rw [hr] at he
        simp only [exceptBind_ok] at he
        by_cases hn : n ≥ 0 <;> simp [hn] at he

/-- Witness for C6: on the sample document the native resolver answers 3 for
"chapter1", and `resolve_link` returns `some 3`. -/
theorem resolve_link_sign_witness :
    sampleDoc.resolve_link "chapter1" = .ok (if (3 : Int) ≥ 0 then some 3 else none) :=
  (resolve_link_sign sampleDoc "chapter1").1 3 (by decide) rfl

/-- C4: when the native metadata lookup reports a structurally absent (NULL)
value, `metadata` returns the successful empty string; a failure arises only
from the native call itself (the fixed keys always marshal, by
`cstringNew_to_str`). -/
theorem metadata_absent_empty (d : Document) (name : MetadataName) :
    (d.native.mupdf_lookup_metadata name.to_str = .ok none → d.metadata name = .ok "") ∧
    (∀ e, d.metadata name = .error e →
      d.native.mupdf_lookup_metadata name.to_str = .error e) := by
  have hc : cstringNew name.to_str = .ok name.to_str := cstringNew_to_str name
  constructor
  · intro h
    unfold Document.metadata
    rw [hc]
    simp only [exceptBind_ok]
    rw [h]
    rfl
  · intro e he
    unfold Document.metadata at he
    rw [hc] at he
    simp only [exceptBind_ok] at he
    cases hr : d.native.mupdf_lookup_metadata name.to_str with
    | error e1 =>
      rw [hr] at he
      simp only [exceptBind_error, Except.error.injEq] at he
      subst he
      rfl
    | ok v =>
      rw [hr] at he
      simp only [exceptBind_ok] at he
      cases v <;> simp at he

/-- Witness for C4: the sample document has absent metadata for every key,
and `metadata Author` is the successful empty string. -/
theorem metadata_absent_empty_witness :
    sampleDoc.metadata .Author = .ok "" :=
  (metadata_absent_empty sampleDoc .Author).1 rfl

/-- C2: a `next` call with `index < total` yields exactly the result of
`load_page index` (success or failure alike) and increments `index` by one;
with `index >= total` it yields nothing and leaves the state unchanged; and
after a failed element, the following `next` call still attempts the next
page. -/
theorem pageIter_next_step (it : PageIter) :
    (it.index < it.total →
      it.next = (some (it.doc.load_page it.index), { it with index := it.index + 1 })) ∧
    (it.total ≤ it.index → it.next = (none, it)) ∧
    (∀ err, it.doc.load_page it.index = .error err → it.index + 1 < it.total →
      ((it.next).2).next =
        (some (it.doc.load_page (it.index + 1)), { it with index := it.index + 2 })) := by
  refine ⟨?_, ?_, ?_⟩
  · intro h
    unfold PageIter.next
    rw [if_neg (by omega)]
  · intro h
    unfold PageIter.next
    rw [if_pos (by omega)]
  · intro err _ h
    have h1 : it.next = (some (it.doc.load_page it.index), { it with index := it.index + 1 }) := by
      unfold PageIter.next
      rw [if_neg (by omega)]
    rw [h1]
    show ({ it with index := it.index + 1 } : PageIter).next = _
    unfold PageIter.next
    rw [if_neg (by
      show ¬(({ it with index := it.index + 1 } : PageIter).index ≥
        ({ it with index := it.index + 1 } : PageIter).total)
      show ¬(it.index + 1 ≥ it.total)
      omega)]
    show (some (it.doc.load_page (it.index + 1)),
      ({ it with index := it.index + 1 + 1 } : PageIter)) = _
    have h2 : it.index + 1 + 1 = it.index + 2 := by omega
    rw [h2]

/-- Witness for C2: on the flaky iterator (2 pages, page 0 fails to load),
the first `next` yields the failed load and moves to index 1, and the second
`next` still attempts page 1. -/
theorem pageIter_next_step_witness :
    flakyIter.next =
      (some (flakyIter.doc.load_page flakyIter.index), { flakyIter with index := flakyIter.index + 1 }) ∧
    ((flakyIter.next).2).next =
      (some (flakyIter.doc.load_page (flakyIter.index + 1)), { flakyIter with index := flakyIter.index + 2 }) := by
  have h := pageIter_next_step flakyIter
  exact ⟨h.1 (by decide), h.2.2 (Error.engine "bad page") rfl (by decide)⟩

/-- C7: `pages` re-reads the current page count (propagating its failure)
and returns a fresh iterator at index 0 over the same handle; two iterators
obtained from `pages` on the unchanged handle produce the same sequence of
page-load results. -/
theorem pages_fresh_restartable (d : Document) :
    (∀ n, d.page_count = .ok n → d.pages = .ok { index := 0, total := n, doc := d }) ∧
    (∀ e, d.page_count = .error e → d.pages = .error e) ∧
    (∀ it1 it2 fuel, d.pages = .ok it1 → d.pages = .ok it2 →
      it1.run fuel = it2.run fuel) := by
  refine ⟨?_, ?_, ?_⟩
  · intro n hn
    unfold Document.pages
    rw [hn]
    rfl
  · intro e he
    unfold Document.pages
    rw [he]
    rfl
  · intro it1 it2 fuel h1 h2
    rw [h1] at h2
    injection h2 with h
    rw [h]

/-- Witness for C7: on the two-page sample document, `pages` yields the
iterator at index 0 with total 2. -/
theorem pages_fresh_restartable_witness :
    sampleDoc.pages = .ok { index := 0, total := 2, doc := sampleDoc } :=
  (pages_fresh_restartable sampleDoc).1 2 rfl

/-- C8: an iterator freshly created by `pages` satisfies
`0 ≤ index ≤ total` (given the native layer's page count is non-negative, as
the design assumes of a valid count), `next` preserves that invariant, and
every `next` call that yields an element moves `index` up by exactly one. -/
theorem pageIter_invariant (d : Document) (it : PageIter) :
    (∀ n it0, 0 ≤ n → d.page_count = .ok n → d.pages = .ok it0 →
      0 ≤ it0.index ∧ it0.index ≤ it0.total) ∧
    (0 ≤ it.index ∧ it.index ≤ it.total →
      0 ≤ ((it.next).2).index ∧ ((it.next).2).index ≤ ((it.next).2).total) ∧
    (∀ r it', it.next = (some r, it') → it'.index = it.index + 1) := by
  refine ⟨?_, ?_, ?_⟩
  · intro n it0 hn hcount hpages
    unfold Document.pages at hpages
    rw [hcount] at hpages
    have hpages' : Except.ok ({ index := 0, total := n, doc := d } : PageIter) = .ok it0 :=
      hpages
    injection hpages' with h
    rw [← h]
    exact ⟨le_refl 0, hn⟩
  · intro hinv
    unfold PageIter.next
    by_cases hge : it.index ≥ it.total
    · rw [if_pos hge]
      exact hinv
    · rw [if_neg hge]
      constructor
      · show (0 : Int) ≤ it.index + 1
        omega
      · show it.index + 1 ≤ it.total
        omega
  · intro r it' hn
    unfold PageIter.next at hn
    by_cases hge : it.index ≥ it.total
    · rw [if_pos hge] at hn
      simp at hn
    · rw [if_neg hge] at hn
      simp only [Prod.mk.injEq, Option.some.injEq] at hn
      rw [← hn.2]

/-- Witness for C8: the sample iterator satisfies the invariant at creation
and after one `next` step. -/
theorem pageIter_invariant_witness :
    ((0 : Int) ≤ sampleIter.index ∧ sampleIter.index ≤ sampleIter.total) ∧
    ((0 : Int) ≤ ((sampleIter.next).2).index ∧
      ((sampleIter.next).2).index ≤ ((sampleIter.next).2).total) := by
  have h := pageIter_invariant sampleDoc sampleIter
  have h1 := h.1 2 sampleIter (by decide) rfl rfl
  exact ⟨h1, h.2.1 h1⟩

/-- C9: the finalizer body releases the owned native resource exactly once
when the stored pointer is non-null and not at all when it is null, and a
failed construction yields no handle at all (so no finalization can run for
it). Operations in this model never modify the stored pointer, so running
the finalizer after failed operations behaves identically; the host
language's ownership semantics run `drop` at most once per value, making the
body's single conditional release the handle's entire release history. -/
theorem drop_releases_once (d : Document) (eng : Engine) (name : String) :
    (d.inner ≠ 0 →
      d.dropHandle = [ReleaseCall.fz_drop_document d.inner] ∧ d.dropHandle.length = 1) ∧
    (d.inner = 0 → d.dropHandle = []) ∧
    (∀ e, Document.openDoc eng name = .error e → ∀ d0, Document.openDoc eng name ≠ .ok d0) := by
  refine ⟨?_, ?_, ?_⟩
  · intro h
    unfold Document.dropHandle
    rw [if_pos h]
    exact ⟨rfl, rfl⟩
  · intro h
    unfold Document.dropHandle
    rw [if_neg (not_not_intro h)]
  · intro e he d0 hok
    rw [he] at hok
    exact Except.noConfusion hok

/-- Witness for C9: the sample handle stores the non-null pointer 7, and its
finalizer emits exactly one release call on it; the sample engine's failing
open yields no handle. -/
theorem drop_releases_once_witness :
    sampleDoc.dropHandle = [ReleaseCall.fz_drop_document sampleDoc.inner] ∧
    sampleDoc.dropHandle.length = 1 :=
  (drop_releases_once sampleDoc sampleEngine "x").1 (by decide)

/-- C3 counterexample: on a handle whose page-count query fails with an
engine error, the `IntoIterator` route to a page iterator panics (it unwraps
`pages()`) instead of returning a typed failure to the caller, contradicting
the claim that every way of obtaining a page iterator yields a typed
result. -/
theorem into_iter_panics_cex :
    failingDoc.page_count = .error (.engine "cannot count pages") ∧
    failingDoc.into_iter = PanicOr.panicked :=
  ⟨rfl, rfl⟩

/-- C3 amended: the explicit operations return typed results — in particular
`pages` surfaces the page-count failure as a typed error — but the
`IntoIterator` implementations for `&Document` and `&mut Document` unwrap
`pages()`: they panic exactly when the page-count query fails and return the
iterator (never a typed failure) otherwise. -/
theorem into_iter_unwraps_pages (d : Document) :
    (∀ e, d.page_count = .error e →
      d.pages = .error e ∧ d.into_iter = PanicOr.panicked) ∧
    (∀ it, d.pages = .ok it → d.into_iter = PanicOr.value it) := by
  constructor
  · intro e he
    have hp : d.pages = .error e := by
      unfold Document.pages
      rw [he]
      rfl
    refine ⟨hp, ?_⟩
    unfold Document.into_iter
    rw [hp]
    rfl
  · intro it hit
    unfold Document.into_iter
    rw [hit]
    rfl

/-- Witness for C3 (amended): the failing document's `pages` is a typed
error and its `into_iter` panics; the sample document's `into_iter` returns
the sample iterator. -/
theorem into_iter_unwraps_pages_witness :
    (failingDoc.pages = .error (.engine "cannot count pages") ∧
      failingDoc.into_iter = PanicOr.panicked) ∧
    sampleDoc.into_iter = PanicOr.value sampleIter :=
  ⟨(into_iter_unwraps_pages failingDoc).1 (.engine "cannot count pages") rfl,
   (into_iter_unwraps_pages sampleDoc).2 sampleIter rfl⟩
